import Mathlib

/-!
Verification of the BEE-ClubVerse authentication and reservation layer.

Shallow embedding of the relevant JavaScript source:
  - `middlewares/authAdvanced.js` : ownership check, permission check,
    login request limiter;
  - `models/user.js` : account-lockout methods on the user record;
  - `routes/authRoutes.js` : login route flow, password-strength regex,
    refresh-secret selection;
  - `models/reservation.js` : dual-backend reservation shape (`mapRow`
    vs the document-store schema).

Time is modelled as milliseconds since epoch (`Nat`, matching
`Date.now()`).  Fallible or branching middleware is modelled as a pure
function returning an explicit outcome.
-/

namespace ClubVerse

/-- Outcome of one middleware in an Express chain: either it calls
`next()` or it terminates the chain with an HTTP status and error code. -/
inductive MwResult where
  | next : MwResult
  | respond (status : Nat) (code : String) : MwResult
deriving DecidableEq, Repr

/-!
## Ownership check (`authAdvanced.js`, `checkResourceOwnership`, lines 197-223)

Source:
```
const resourceId = req.params.id || req.params.userId;
const requestingUserId = req.user._id.toString();
if (req.user.role === "admin") { return next(); }
if (resourceId !== requestingUserId) {
  return res.status(403).json({ error: ..., code: "NOT_OWNER" });
}
next();
```
`resourceId` may be absent (`undefined`), modelled as `Option String`;
comparing `undefined !== requestingUserId` in JS is true, i.e. a missing
id also fails for non-admins, which the `Option` comparison reproduces.
-/

def checkResourceOwnership (role requestingUserId : String)
    (resourceId : Option String) : MwResult :=
  if role = "admin" then .next
  else if resourceId ≠ some requestingUserId then .respond 403 "NOT_OWNER"
  else .next

/-- Result of dispatching the route `PUT /users/:id`
(`authRoutes.js` line 300): either some middleware responded before the
handler, or the route handler itself ran. -/
inductive RouteOutcome where
  | handled (status : Nat) (code : String)
  | handlerRan
deriving DecidableEq, Repr

/-- Route `PUT /users/:id` after `protect` has resolved the identity: the
`checkResourceOwnership` middleware either terminates the chain or the
profile-update handler runs (`authRoutes.js` line 300). -/
def putUserByIdRoute (role requestingUserId : String)
    (pathId : Option String) : RouteOutcome :=
  match checkResourceOwnership role requestingUserId pathId with
  | .next => .handlerRan
  | .respond s c => .handled s c

/-- C1: on `PUT /api/users/:id`, a non-admin caller whose id differs from
the path id is rejected with 403 `NOT_OWNER` and the handler never runs;
an admin caller passes the ownership check regardless of the path id. -/
theorem ownership_check_put_users (role requestingUserId pathId : String) :
    (role ≠ "admin" → pathId ≠ requestingUserId →
      putUserByIdRoute role requestingUserId (some pathId) =
        .handled 403 "NOT_OWNER") ∧
    (role = "admin" →
      putUserByIdRoute role requestingUserId (some pathId) = .handlerRan) := by
  constructor
  · intro hrole hid
    simp [putUserByIdRoute, checkResourceOwnership, hrole, hid]
  · intro hrole
    simp [putUserByIdRoute, checkResourceOwnership, hrole]

/-- Witness for C1 at a concrete non-admin caller addressing the id of
another user. -/
theorem ownership_check_put_users_witness :
    putUserByIdRoute "user" "u1" (some "u2") = .handled 403 "NOT_OWNER" :=
  (ownership_check_put_users "user" "u1" "u2").1 (by decide) (by decide)

/-!
## Per-account lockout (`models/user.js`, lines 23-55) and the login
route flow (`routes/authRoutes.js`, lines 106-201)

Lockout-relevant fields of the user record; other fields (email, hashed
password, role, ...) do not enter the lockout logic and the password
comparison is abstracted to a boolean input of the login step.
-/

structure UserRec where
  loginAttempts : Nat
  lockUntil : Option Nat
  lastLogin : Option Nat
deriving DecidableEq, Repr

/-- Virtual `isLocked` of the user schema:
`!!(this.lockUntil && this.lockUntil > Date.now())`. -/
def isLocked (u : UserRec) (now : Nat) : Bool :=
  match u.lockUntil with
  | some l => decide (now < l)
  | none => false

/-- Constant `maxAttempts` inside `incLoginAttempts`. -/
def maxAttempts : Nat := 5

/-- Constant `lockTime = 30 * 60 * 1000` inside `incLoginAttempts`. -/
def lockTime : Nat := 30 * 60 * 1000

/-- Guard `this.lockUntil && this.lockUntil < Date.now()` of
`incLoginAttempts`. -/
def lockExpired (u : UserRec) (now : Nat) : Bool :=
  match u.lockUntil with
  | some l => decide (l < now)
  | none => false

/-- Method `incLoginAttempts` of the user schema (`user.js` lines 28-47): if the
lock has expired, restart the counter at 1 and unset the lock; otherwise
increment the counter and, when the incremented counter reaches
`maxAttempts` on an unlocked record, set `lockUntil` 30 minutes ahead. -/
def incLoginAttempts (u : UserRec) (now : Nat) : UserRec :=
  if lockExpired u now then
    { u with loginAttempts := 1, lockUntil := none }
  else if maxAttempts ≤ u.loginAttempts + 1 ∧ isLocked u now = false then
    { u with loginAttempts := u.loginAttempts + 1,
             lockUntil := some (now + lockTime) }
  else
    { u with loginAttempts := u.loginAttempts + 1 }

/-- Method `resetLoginAttempts` of the user schema (`user.js` lines 50-55). -/
def resetLoginAttempts (u : UserRec) (now : Nat) : UserRec :=
  { u with loginAttempts := 0, lastLogin := some now, lockUntil := none }

/-- Outcome of `POST /auth/login` for a found user record. -/
inductive LoginOutcome where
  | rejected (status : Nat) (code : String)
  | success
deriving DecidableEq, Repr

/-- Route `POST /auth/login` (`authRoutes.js` lines 127-150) once the user
record has been found: a locked account is rejected 403 `ACCOUNT_LOCKED`
before the password is compared; a failed comparison increments the
attempt counter and yields 401; a successful comparison resets the
counter. `passwordValid` abstracts `bcrypt.compare`. -/
def loginStep (u : UserRec) (passwordValid : Bool) (now : Nat) :
    LoginOutcome × UserRec :=
  if isLocked u now then (.rejected 403 "ACCOUNT_LOCKED", u)
  else if passwordValid = false then
    (.rejected 401 "INVALID_CREDENTIALS", incLoginAttempts u now)
  else (.success, resetLoginAttempts u now)

/-- State of the user record after a sequence of failed login attempts
at the given times. -/
def failedLogins (u : UserRec) : List Nat → UserRec
  | [] => u
  | t :: ts => failedLogins (loginStep u false t).2 ts

/-- C2: starting from an account with no failed attempts and no lock,
the 5th consecutive failed password verification sets `lockUntil`
30 minutes past the time of the 5th attempt, and a 6th attempt inside that
window is rejected 403 `ACCOUNT_LOCKED` whatever password it submits. -/
theorem fifth_failure_locks_thirty_minutes
    (ll : Option Nat) (t1 t2 t3 t4 t5 t6 : Nat)
    (h6 : t6 < t5 + lockTime) :
    let u5 := failedLogins ⟨0, none, ll⟩ [t1, t2, t3, t4, t5]
    u5 = ⟨5, some (t5 + lockTime), ll⟩ ∧
    ∀ pw : Bool, loginStep u5 pw t6 = (.rejected 403 "ACCOUNT_LOCKED", u5) := by
  intro u5
  have hu5 : u5 = ⟨5, some (t5 + lockTime), ll⟩ := by
    show failedLogins ⟨0, none, ll⟩ [t1, t2, t3, t4, t5] = _
    simp [failedLogins, loginStep, incLoginAttempts, isLocked, lockExpired,
      maxAttempts]
  refine ⟨hu5, ?_⟩
  intro pw
  rw [hu5]
  simp [loginStep, isLocked, h6]

/-- Witness for C2 with the five failures at times 0..4 and the 6th
attempt one millisecond later. -/
theorem fifth_failure_locks_thirty_minutes_witness :
    (failedLogins ⟨0, none, none⟩ [0, 1, 2, 3, 4] =
        ⟨5, some (4 + lockTime), none⟩) ∧
      loginStep (failedLogins ⟨0, none, none⟩ [0, 1, 2, 3, 4]) true 5 =
        (.rejected 403 "ACCOUNT_LOCKED",
          failedLogins ⟨0, none, none⟩ [0, 1, 2, 3, 4]) := by
  have h := fifth_failure_locks_thirty_minutes none 0 1 2 3 4 5 (by decide)
  exact ⟨h.1, (h.2 true)⟩

/-- C7: on any unlocked record, a successful password verification at
login resets the attempt counter to 0, unsets `lockUntil` and records
the login time, whatever the prior value of the counter. -/
theorem successful_login_resets_attempts (u : UserRec) (now : Nat)
    (h : isLocked u now = false) :
    loginStep u true now =
      (.success, { u with loginAttempts := 0, lockUntil := none,
                          lastLogin := some now }) := by
  simp [loginStep, h, resetLoginAttempts]

/-- Witness for C7 on a record with four accumulated failed attempts. -/
theorem successful_login_resets_attempts_witness :
    loginStep ⟨4, none, none⟩ true 100 =
      (.success, ⟨0, none, some 100⟩) :=
  successful_login_resets_attempts ⟨4, none, none⟩ 100 (by decide)

/-- C8: when `lockUntil` is set but already in the past, the next failed
login attempt sets the counter to exactly 1 and unsets `lockUntil`
instead of continuing to accumulate. -/
theorem expired_lock_restarts_counter (u : UserRec) (now l : Nat)
    (hl : u.lockUntil = some l) (hpast : l < now) :
    loginStep u false now =
      (.rejected 401 "INVALID_CREDENTIALS",
        { u with loginAttempts := 1, lockUntil := none }) := by
  have hnl : isLocked u now = false := by
    simp [isLocked, hl]
    omega
  have hexp : lockExpired u now = true := by
    simp [lockExpired, hl, hpast]
  simp [loginStep, hnl, incLoginAttempts, hexp]

/-- Witness for C8: a record with 5 accumulated attempts whose lock
expired at time 50 fails again at time 100. -/
theorem expired_lock_restarts_counter_witness :
    loginStep ⟨5, some 50, none⟩ false 100 =
      (.rejected 401 "INVALID_CREDENTIALS", ⟨1, none, none⟩) :=
  expired_lock_restarts_counter ⟨5, some 50, none⟩ 100 50 rfl (by decide)

/-!
## Password-strength check (`authRoutes.js`, lines 41-48)

Source regex:
```
/^(?=.*[a-z])(?=.*[A-Z])(?=.*\d)(?=.*[@$!%*?&])[A-Za-z\d@$!%*?&]{8,}$/
```
Its semantics on a string: the four lookaheads each require some
character of the respective class anywhere in the string, and the
anchored body requires EVERY character to come from
`[A-Za-z\d@$!%*?&]` with at least 8 characters in total.
-/

def isLowerAlpha (c : Char) : Bool := 'a' ≤ c && c ≤ 'z'

def isUpperAlpha (c : Char) : Bool := 'A' ≤ c && c ≤ 'Z'

def isDigitChar (c : Char) : Bool := '0' ≤ c && c ≤ '9'

/-- The fixed special-character set `[@$!%*?&]` of the regex. -/
def specialChars : List Char := ['@', '$', '!', '%', '*', '?', '&']

def isSpecialChar (c : Char) : Bool := specialChars.contains c

/-- The character class `[A-Za-z\d@$!%*?&]` of the regex body. -/
def isAllowedChar (c : Char) : Bool :=
  isLowerAlpha c || isUpperAlpha c || isDigitChar c || isSpecialChar c

/-- Test `passwordRegex.test(password)` (`authRoutes.js` lines 42-43): the
registration password check. -/
def passwordRegexTest (s : String) : Bool :=
  decide (8 ≤ s.length) && s.toList.all isAllowedChar &&
  s.toList.any isLowerAlpha && s.toList.any isUpperAlpha &&
  s.toList.any isDigitChar && s.toList.any isSpecialChar

/-- Predicate `meetsPolicy` as the spec words it: length ≥ 8 and one character of
each required class, with no restriction on the remaining characters. -/
def meetsPolicySpecWords (s : String) : Bool :=
  decide (8 ≤ s.length) &&
  s.toList.any isLowerAlpha && s.toList.any isUpperAlpha &&
  s.toList.any isDigitChar && s.toList.any isSpecialChar

/-- C3 counterexample: `"Aa1!aaa#"` has length 8, a lowercase, an
uppercase, a digit and a special character of the fixed set, so the
claimed iff says it is accepted; the regex rejects it because `#` falls
outside the character class `[A-Za-z\d@$!%*?&]` of the anchored body. -/
theorem password_policy_claim_false :
    passwordRegexTest "Aa1!aaa#" = false ∧
      meetsPolicySpecWords "Aa1!aaa#" = true := by
  constructor <;> rfl

/-- C3 amended: the check accepts a password iff its length is at least
8, EVERY character is a letter, digit or one of `@$!%*?&`, and it
contains at least one lowercase, one uppercase, one digit and one
special character of that set. -/
theorem password_policy_characterization (s : String) :
    passwordRegexTest s = true ↔
      (8 ≤ s.length ∧ (∀ c ∈ s.toList, isAllowedChar c = true) ∧
        (∃ c ∈ s.toList, isLowerAlpha c = true) ∧
        (∃ c ∈ s.toList, isUpperAlpha c = true) ∧
        (∃ c ∈ s.toList, isDigitChar c = true) ∧
        (∃ c ∈ s.toList, isSpecialChar c = true)) := by
  simp [passwordRegexTest, List.all_eq_true, List.any_eq_true,
    Bool.and_eq_true, and_assoc]

/-- Witness for C3 applying the characterization to a concrete accepted
password. -/
theorem password_policy_characterization_witness :
    passwordRegexTest "Aa1!aaaa" = true :=
  (password_policy_characterization "Aa1!aaaa").mpr (by decide)

/-!
## Refresh-token secret selection (`authRoutes.js`, lines 163-169 and
221-224)

Both the signing of a refresh token at login and its verification at
`POST /auth/refresh-token` use the expression
`process.env.REFRESH_SECRET || process.env.JWT_SECRET`.  An environment
variable is modelled as `Option String`; in JS an unset variable is
`undefined` and an empty string is also falsy, so `||` falls through in
both cases.
-/

structure JwtEnv where
  JWT_SECRET : Option String
  REFRESH_SECRET : Option String
deriving DecidableEq, Repr

/-- JS `a || b` on environment strings: falls through on `undefined` and
on the empty string. -/
def envOr (a b : Option String) : Option String :=
  match a with
  | some s => if s = "" then b else some s
  | none => b

/-- Secret used to sign an access token (`process.env.JWT_SECRET`). -/
def accessSecret (env : JwtEnv) : Option String := env.JWT_SECRET

/-- Secret used to sign AND verify a refresh token:
`process.env.REFRESH_SECRET || process.env.JWT_SECRET`. -/
def refreshSecret (env : JwtEnv) : Option String :=
  envOr env.REFRESH_SECRET env.JWT_SECRET

/-- C4: with the refresh secret unset and the access secret configured,
the code silently selects the access-token secret for refresh-token
signing and verification; no error path is taken, contradicting the
claim that the implementation fails loudly. -/
theorem refresh_secret_silent_fallback :
    refreshSecret ⟨some "access-secret", none⟩ =
        accessSecret ⟨some "access-secret", none⟩ ∧
      refreshSecret ⟨some "access-secret", none⟩ = some "access-secret" := by
  constructor <;> rfl

/-!
## Permission check (`authAdvanced.js`, `checkPermission`, lines 147-191)
-/

/-- The fixed role → permissions table defined inside `checkPermission`;
an unknown role gets `[]` (the `|| []` fallback at line 174). -/
def rolePermissions (role : String) : List String :=
  if role = "admin" then
    ["view_users", "create_users", "update_users", "delete_users",
     "view_reservations", "manage_reservations",
     "view_settings", "update_settings",
     "view_logs", "manage_admins"]
  else if role = "manager" then
    ["view_users", "view_reservations", "manage_reservations",
     "view_settings"]
  else if role = "user" then
    ["view_profile", "update_profile",
     "create_reservations", "view_own_reservations"]
  else []

/-- Middleware `checkPermission(requiredPermissions)` applied to an authenticated
request whose resolved identity has the given role:
`requiredPermissions.every(perm => userPermissions.includes(perm))`
decides between `next()` and 403 `INSUFFICIENT_PERMISSIONS`. -/
def checkPermission (requiredPermissions : List String) (role : String) :
    MwResult :=
  if requiredPermissions.all (fun perm => (rolePermissions role).contains perm)
  then .next
  else .respond 403 "INSUFFICIENT_PERMISSIONS"

/-- C6: the permission check calls through iff every required permission
belongs to the fixed permission set of the role of the caller; otherwise it
terminates the chain with 403 `INSUFFICIENT_PERMISSIONS`. -/
theorem permission_check_characterization (requiredPermissions : List String)
    (role : String) :
    (checkPermission requiredPermissions role = .next ↔
      ∀ p ∈ requiredPermissions, p ∈ rolePermissions role) ∧
    ((¬ ∀ p ∈ requiredPermissions, p ∈ rolePermissions role) →
      checkPermission requiredPermissions role =
        .respond 403 "INSUFFICIENT_PERMISSIONS") := by
  have hiff : requiredPermissions.all
      (fun perm => (rolePermissions role).contains perm) = true ↔
      ∀ p ∈ requiredPermissions, p ∈ rolePermissions role := by
    simp [List.all_eq_true]
  constructor
  · rw [← hiff]
    unfold checkPermission
    by_cases h : requiredPermissions.all
        (fun perm => (rolePermissions role).contains perm) = true
    · simp [h]
    · simp [h]
  · intro hno
    have hb : ¬ (requiredPermissions.all
        (fun perm => (rolePermissions role).contains perm) = true) :=
      fun hall => hno (hiff.mp hall)
    rw [checkPermission, if_neg hb]

/-- Witness for C6: a manager lacks `delete_users`, so the check
responds 403 `INSUFFICIENT_PERMISSIONS`. -/
theorem permission_check_characterization_witness :
    checkPermission ["delete_users"] "manager" =
      .respond 403 "INSUFFICIENT_PERMISSIONS" :=
  (permission_check_characterization ["delete_users"] "manager").2 (by decide)

/-!
## Reservation result shape (`models/reservation.js`)

The document-store schema (`reservationSchema`, lines 21-43) declares
the reservation fields; the document store assigns the identifier field
`_id` on save.  The relational path returns rows through `mapRow`
(lines 49-66), which assigns exactly the listed camelCase keys in
source order.  Create (`save`), find (`ReservationQuery.exec`) and
update (`findByIdAndUpdate`) all return `mapRow` output on the
relational backend and schema-shaped documents on the document store.
-/

/-- Field keys declared by `reservationSchema`, in source order. -/
def reservationSchemaFields : List String :=
  ["userId", "name", "email", "phone", "date", "time", "guests",
   "specialRequests", "club", "clubLocation", "status",
   "createdAt", "updatedAt"]

/-- Field keys of a stored document: the document store adds `_id`. -/
def mongoReservationFields : List String := "_id" :: reservationSchemaFields

/-- Field keys assigned by `mapRow`, in source order (lines 50-65). -/
def mapRowFields : List String :=
  ["_id", "userId", "name", "email", "phone", "date", "time", "guests",
   "specialRequests", "club", "clubLocation", "status",
   "createdAt", "updatedAt"]

/-- C9: the relational `mapRow` result and a document-store reservation
carry the same field names, namely exactly the fourteen fields listed in
the interface contract. -/
theorem reservation_shape_backend_agnostic :
    mapRowFields = mongoReservationFields ∧
      mapRowFields = ["_id", "userId", "name", "email", "phone", "date",
        "time", "guests", "specialRequests", "club", "clubLocation",
        "status", "createdAt", "updatedAt"] := by
  constructor <;> rfl

/-!
## Login request limiter (`authAdvanced.js`, `createLoginLimiter`,
lines 229-256; instantiated at `authRoutes.js` line 18 as
`createLoginLimiter(5, 15 * 60 * 1000)`)

Source per request:
```
const identifier = req.body.email || req.ip;
const now = Date.now();
const userAttempts = attempts.get(identifier) || [];
const recentAttempts = userAttempts.filter(time => now - time < lockoutTime);
if (recentAttempts.length >= maxAttempts) {
  const oldestAttempt = Math.min(...recentAttempts);
  return res.status(429).json({ ..., code: "RATE_LIMITED",
    retryAfter: Math.ceil((oldestAttempt + lockoutTime - now) / 1000) });
}
recentAttempts.push(now);
attempts.set(identifier, recentAttempts);
next();
```
The map is keyed per identifier and the list under each key evolves
independently, so the recorded list of one key is the state.  On rejection
the code returns before `attempts.set`, so the stored list is unchanged.
For `time > now` JS computes a negative difference, which is
`< lockoutTime`; truncated `Nat` subtraction yields `0 < lockoutTime`,
the same verdict.
-/

/-- Identifier of a login attempt: `req.body.email || req.ip` (the
empty string is falsy in JS and also falls through). -/
def limiterIdentifier (email : Option String) (ip : String) : String :=
  match email with
  | some e => if e = "" then ip else e
  | none => ip

/-- Window `lockoutTime` of the login limiter instance: 15 minutes in ms. -/
def loginWindowMs : Nat := 15 * 60 * 1000

inductive LimiterOutcome where
  | allowed
  | limited (retryAfter : Nat)
deriving DecidableEq, Repr

/-- Filter `userAttempts.filter(time => now - time < lockoutTime)`. -/
def recentAttempts (lockoutTime : Nat) (recorded : List Nat) (now : Nat) :
    List Nat :=
  recorded.filter (fun time => decide (now - time < lockoutTime))

/-- Minimum `Math.min(...l)` of a nonempty list (0 on the empty list, which the
source never reaches). -/
def minList : List Nat → Nat
  | [] => 0
  | t :: ts => ts.foldl Nat.min t

/-- One request through `createLoginLimiter(maxAttempts, lockoutTime)`
for a single identifier: takes the stored timestamp list of that identifier
and the current time, returns the outcome and the stored list after the
request. -/
def limiterStep (maxAttempts lockoutTime : Nat) (recorded : List Nat)
    (now : Nat) : LimiterOutcome × List Nat :=
  if maxAttempts ≤ (recentAttempts lockoutTime recorded now).length then
    (.limited ((minList (recentAttempts lockoutTime recorded now) +
      lockoutTime - now + 999) / 1000), recorded)
  else
    (.allowed, recentAttempts lockoutTime recorded now ++ [now])

/-- The limiter instance guarding `POST /auth/login`. -/
def loginLimiterStep (recorded : List Nat) (now : Nat) :
    LimiterOutcome × List Nat :=
  limiterStep 5 loginWindowMs recorded now

lemma foldl_min_mem (ts : List Nat) (a : Nat) :
    ts.foldl Nat.min a = a ∨ ts.foldl Nat.min a ∈ ts := by
  induction ts generalizing a with
  | nil => exact Or.inl rfl
  | cons t ts ih =>
    rcases ih (Nat.min a t) with h | h
    · rcases Nat.le_total a t with hle | hle
      · refine Or.inl ?_
        rw [List.foldl_cons, h]
        simp [Nat.min_def, hle]
      · refine Or.inr ?_
        rw [List.foldl_cons, h]
        have hmin : Nat.min a t = t := by
          simp [Nat.min_def]
          omega
        rw [hmin]
        exact List.mem_cons_self t ts
    · exact Or.inr (List.mem_cons_of_mem t h)

lemma minList_mem {l : List Nat} (h : l ≠ []) : minList l ∈ l := by
  match l with
  | t :: ts =>
    rcases foldl_min_mem ts t with h' | h'
    · rw [minList, h']; exact List.mem_cons_self t ts
    · exact List.mem_cons_of_mem t h'

lemma filter_length_lt (p : Nat → Bool) {l : List Nat} {x : Nat}
    (hx : x ∈ l) (hpx : p x = false) :
    (l.filter p).length < l.length := by
  induction l with
  | nil => cases hx
  | cons a t ih =>
    rcases List.mem_cons.mp hx with rfl | hxt
    · rw [List.filter_cons, hpx]
      simpa [Nat.lt_succ_iff] using List.length_filter_le p t
    · rw [List.filter_cons]
      cases hpa : p a
      · simpa [Nat.lt_succ_iff] using Nat.le_of_lt (ih hxt)
      · simpa using ih hxt

/-- C5: for a single identifier of the login limiter, whenever 5 of the
recorded attempt timestamps lie inside the trailing 15-minute window,
the request is rejected (`limited r`) with the stored list unchanged,
and `r` is exactly the whole seconds remaining until the oldest
in-window attempt leaves the window — the least `r` with
`oldest + window ≤ now + 1000 * r`; with fewer than 5 in-window attempts
the request is allowed, and once the oldest recorded attempt has left
the window (the stored list having at most 5 entries) requests are
allowed again. -/
theorem login_limiter_window (recorded : List Nat) (now : Nat) :
    (5 ≤ (recentAttempts loginWindowMs recorded now).length →
      ∃ r, loginLimiterStep recorded now = (.limited r, recorded) ∧
        minList (recentAttempts loginWindowMs recorded now) + loginWindowMs ≤
          now + 1000 * r ∧
        ∀ m, minList (recentAttempts loginWindowMs recorded now) +
            loginWindowMs ≤ now + 1000 * m → r ≤ m) ∧
    ((recentAttempts loginWindowMs recorded now).length < 5 →
      (loginLimiterStep recorded now).1 = .allowed) ∧
    (recorded.length ≤ 5 → recorded ≠ [] →
      ∀ later, minList recorded + loginWindowMs ≤ later →
        (loginLimiterStep recorded later).1 = .allowed) := by
  refine ⟨?_, ?_, ?_⟩
  · intro h5
    have hne : recentAttempts loginWindowMs recorded now ≠ [] := by
      intro h
      rw [h] at h5
      simp at h5
    have hmem : minList (recentAttempts loginWindowMs recorded now) ∈
        recorded.filter (fun time => decide (now - time < loginWindowMs)) :=
      minList_mem hne
    have hp := List.of_mem_filter hmem
    have hwin : now - minList (recentAttempts loginWindowMs recorded now) <
        loginWindowMs :=
      of_decide_eq_true hp
    refine ⟨(minList (recentAttempts loginWindowMs recorded now) +
      loginWindowMs - now + 999) / 1000, ?_, ?_, ?_⟩
    · show limiterStep 5 loginWindowMs recorded now = _
      simp only [limiterStep]
      rw [if_pos h5]
    · have hd := Nat.div_add_mod
        (minList (recentAttempts loginWindowMs recorded now) +
          loginWindowMs - now + 999) 1000
      have hm := Nat.mod_lt
        (minList (recentAttempts loginWindowMs recorded now) +
          loginWindowMs - now + 999) (show 0 < 1000 by omega)
      omega
    · intro m hm
      have h1 := Nat.div_mul_le_self
        (minList (recentAttempts loginWindowMs recorded now) +
          loginWindowMs - now + 999) 1000
      omega
  · intro hlt
    show (limiterStep 5 loginWindowMs recorded now).1 = _
    simp only [limiterStep]
    rw [if_neg (by omega)]
  · intro hlen hne later hlater
    have hmem : minList recorded ∈ recorded := minList_mem hne
    have hfail : decide (later - minList recorded < loginWindowMs) = false := by
      simp only [decide_eq_false_iff_not]
      omega
    have hflt := filter_length_lt
      (fun time => decide (later - time < loginWindowMs)) hmem hfail
    have hlt : (recentAttempts loginWindowMs recorded later).length < 5 := by
      calc (recentAttempts loginWindowMs recorded later).length
          < recorded.length := hflt
        _ ≤ 5 := hlen
    show (limiterStep 5 loginWindowMs recorded later).1 = _
    simp only [limiterStep]
    rw [if_neg (by omega)]

/-- Witness for C5: five attempts at times 0..4, a sixth request at
time 10 is limited with `retryAfter = 900` seconds and the stored list
unchanged. -/
theorem login_limiter_window_witness :
    ∃ r, loginLimiterStep [0, 1, 2, 3, 4] 10 =
        (.limited r, [0, 1, 2, 3, 4]) ∧
      minList (recentAttempts loginWindowMs [0, 1, 2, 3, 4] 10) +
          loginWindowMs ≤ 10 + 1000 * r ∧
      ∀ m, minList (recentAttempts loginWindowMs [0, 1, 2, 3, 4] 10) +
          loginWindowMs ≤ 10 + 1000 * m → r ≤ m :=
  (login_limiter_window [0, 1, 2, 3, 4] 10).1 (by decide)

/-- C10: a request rejected by the login limiter leaves the stored attempt
list of that identifier unchanged — rejected attempts are never recorded —
while an allowed request stores exactly the in-window attempts plus its
own timestamp; consequently a stored list of at most 5 entries never
grows beyond 5. -/
theorem limiter_rejected_not_recorded (recorded : List Nat) (now : Nat) :
    (∀ r, (loginLimiterStep recorded now).1 = .limited r →
      (loginLimiterStep recorded now).2 = recorded) ∧
    ((loginLimiterStep recorded now).1 = .allowed →
      (loginLimiterStep recorded now).2 =
        recentAttempts loginWindowMs recorded now ++ [now]) ∧
    (recorded.length ≤ 5 → ((loginLimiterStep recorded now).2).length ≤ 5) := by
  by_cases h : 5 ≤ (recentAttempts loginWindowMs recorded now).length
  · have hstep : loginLimiterStep recorded now =
        (.limited ((minList (recentAttempts loginWindowMs recorded now) +
          loginWindowMs - now + 999) / 1000), recorded) := by
      show limiterStep 5 loginWindowMs recorded now = _
      simp only [limiterStep]
      rw [if_pos h]
    refine ⟨fun r _ => by rw [hstep], fun hall => ?_, fun hlen => by
      rw [hstep]; exact hlen⟩
    rw [hstep] at hall
    cases hall
  · have hstep : loginLimiterStep recorded now =
        (.allowed, recentAttempts loginWindowMs recorded now ++ [now]) := by
      show limiterStep 5 loginWindowMs recorded now = _
      simp only [limiterStep]
      rw [if_neg h]
    refine ⟨fun r hr => ?_, fun _ => by rw [hstep], fun hlen => ?_⟩
    · rw [hstep] at hr
      cases hr
    · rw [hstep]
      simp only [List.length_append, List.length_cons, List.length_nil]
      omega

/-- Witness for C10: a rejected request at time 10 over five recorded
attempts leaves the stored list unchanged, and the list stays within 5
entries. -/
theorem limiter_rejected_not_recorded_witness :
    (loginLimiterStep [0, 1, 2, 3, 4] 10).2 = [0, 1, 2, 3, 4] ∧
      ((loginLimiterStep [0, 1, 2, 3, 4] 10).2).length ≤ 5 :=
  ⟨(limiter_rejected_not_recorded [0, 1, 2, 3, 4] 10).1 900 (by decide),
   (limiter_rejected_not_recorded [0, 1, 2, 3, 4] 10).2.2 (by decide)⟩

end ClubVerse
